import Mathlib

/-!
Verification development for the Tricelerate 2.0 front-end script
(`src/script.js`).  The script is UI glue over a DOM: a one-shot
image-load wait with a timeout fallback, a click-to-enlarge lightbox,
a modal dialog controller with cached animation timelines, button
micro-interactions, and a focus trap.  Each section below shallowly
embeds one slice of the script as executable Lean definitions and
proves the stated properties about them.
-/

namespace Tricelerate

/-!
## waitForImageLoad (script.js lines 25-57)

`waitForImageLoad(img, timeout)` returns a promise.  Fast paths: a
falsy `img`, or an image that is already `complete` with a truthy
`naturalWidth`, resolve immediately without attaching listeners or
starting the timer.  Otherwise a `load` listener, an `error` listener
and a `setTimeout` timer race; each handler is guarded by the shared
`fired` flag, and the winner runs `cleanup()` (removing both listeners
and clearing the timer) before calling `resolve()`.

The embedding tracks the mutable closure state and counts calls to
`resolve`.  An execution of the slow path is an arbitrary finite
sequence of delivered events (`List ImgEvent`): this quantifies over
every interleaving of the three producers.  The browser delivers a
`load`/`error` event only while the listener is attached, and fires
the timer only while it has not been cleared; `stepEvent` models those
delivery conditions.  In a complete run (one that lasts past the
1800 ms deadline) the timer event is delivered unless the timer was
cleared, and `cleanup` clears it only after `resolve` has been called,
so "the run reached the timeout" is modelled as `ImgEvent.timeout`
occurring in the delivered sequence.
-/

/-- The two image-element fields the function reads. -/
structure Image where
  complete : Bool
  naturalWidth : Nat
deriving DecidableEq, Repr

/-- The three producers racing to settle the promise. -/
inductive ImgEvent
| load
| error
| timeout
deriving DecidableEq, Repr

/-- Closure state of one `waitForImageLoad` call: the `fired` flag,
the number of `resolve()` invocations, and whether the listeners /
timer are still installed. -/
structure WaitState where
  fired : Bool
  resolveCount : Nat
  listenersAttached : Bool
  timerActive : Bool
deriving DecidableEq, Repr

/-- State right after `addEventListener`-s and `setTimeout` ran. -/
def initWaitState : WaitState :=
  { fired := false, resolveCount := 0, listenersAttached := true, timerActive := true }

/-- State after one handler won the race: `fired` set, listeners
removed and timer cleared by `cleanup()`, `resolve()` called once. -/
def resolvedState : WaitState :=
  { fired := true, resolveCount := 1, listenersAttached := false, timerActive := false }

/-- Fast-path result: `resolve()` called before `fired` was even
declared; no listeners attached, no timer started. -/
def fastResolvedState : WaitState :=
  { fired := false, resolveCount := 1, listenersAttached := false, timerActive := false }

/-- `onLoad`: `if (fired) return; fired = true; cleanup(); resolve();`. -/
def onLoadHandler (s : WaitState) : WaitState :=
  if s.fired then s
  else { fired := true, resolveCount := s.resolveCount + 1,
         listenersAttached := false, timerActive := false }

/-- `onError`: same body as `onLoad`. -/
def onErrorHandler (s : WaitState) : WaitState :=
  if s.fired then s
  else { fired := true, resolveCount := s.resolveCount + 1,
         listenersAttached := false, timerActive := false }

/-- The `setTimeout` callback: `if (!fired) { fired = true; cleanup(); resolve(); }`. -/
def onTimeoutHandler (s : WaitState) : WaitState :=
  if s.fired then s
  else { fired := true, resolveCount := s.resolveCount + 1,
         listenersAttached := false, timerActive := false }

/-- Deliver one event: `load`/`error` reach their handler only while
the listener is attached; the timer callback runs only while the timer
has not been cleared. -/
def stepEvent (s : WaitState) (e : ImgEvent) : WaitState :=
  match e with
  | ImgEvent.load => if s.listenersAttached then onLoadHandler s else s
  | ImgEvent.error => if s.listenersAttached then onErrorHandler s else s
  | ImgEvent.timeout => if s.timerActive then onTimeoutHandler s else s

/-- Deliver a whole interleaving of events in order. -/
def runEvents (s : WaitState) (es : List ImgEvent) : WaitState :=
  es.foldl stepEvent s

/-- `waitForImageLoad`: the two fast paths return at once; otherwise
the promise's fate is determined by the delivered event sequence. -/
def waitForImageLoad (img : Option Image) (es : List ImgEvent) : WaitState :=
  match img with
  | none => fastResolvedState
  | some i =>
    if i.complete && i.naturalWidth != 0 then fastResolvedState
    else runEvents initWaitState es

lemma stepEvent_init (e : ImgEvent) : stepEvent initWaitState e = resolvedState := by
  cases e <;> rfl

lemma stepEvent_resolved (e : ImgEvent) : stepEvent resolvedState e = resolvedState := by
  cases e <;> rfl

lemma runEvents_resolved (es : List ImgEvent) : runEvents resolvedState es = resolvedState := by
  induction es with
  | nil => rfl
  | cons e es ih =>
    show runEvents (stepEvent resolvedState e) es = resolvedState
    rw [stepEvent_resolved]; exact ih

lemma runEvents_init (es : List ImgEvent) :
    runEvents initWaitState es = if es.isEmpty then initWaitState else resolvedState := by
  cases es with
  | nil => rfl
  | cons e es =>
    show runEvents (stepEvent initWaitState e) es = resolvedState
    rw [stepEvent_init]; exact runEvents_resolved es

/-- Claim C1: for every image element and every interleaving of the
`load` event, the `error` event, and the timeout, `waitForImageLoad`
resolves its promise exactly once — `resolve` is never invoked twice
(the `fired` guard), and since the timer is cleared only after
resolution, a run that reaches the 1800 ms deadline (its event
sequence contains the timer event) is already resolved: the promise
never stays pending past the timeout. -/
theorem waitForImageLoad_resolves_exactly_once (img : Option Image) (es : List ImgEvent) :
    (waitForImageLoad img es).resolveCount ≤ 1 ∧
    (ImgEvent.timeout ∈ es → (waitForImageLoad img es).resolveCount = 1) := by
  have key : ∀ s, s = waitForImageLoad img es →
      s.resolveCount ≤ 1 ∧ (ImgEvent.timeout ∈ es → s.resolveCount = 1) := by
    intro s hs
    match img with
    | none => subst hs; exact ⟨le_refl 1, fun _ => rfl⟩
    | some i =>
      by_cases hc : (i.complete && i.naturalWidth != 0) = true
      · subst hs
        simp only [waitForImageLoad, hc, if_pos]
        exact ⟨le_refl 1, fun _ => rfl⟩
      · subst hs
        simp only [waitForImageLoad, hc, if_neg, Bool.not_eq_true]
        rw [runEvents_init]
        cases es with
        | nil => exact ⟨Nat.zero_le 1, fun h => absurd h (List.not_mem_nil _)⟩
        | cons e es => exact ⟨le_refl 1, fun _ => rfl⟩
  exact key _ rfl

/-- Witness for C1 at a concrete input: an incomplete image whose run
sees a `load` and then the timer; the promise is resolved exactly once. -/
theorem waitForImageLoad_resolves_exactly_once_witness :
    (waitForImageLoad (some { complete := false, naturalWidth := 0 })
      [ImgEvent.load, ImgEvent.timeout]).resolveCount = 1 :=
  (waitForImageLoad_resolves_exactly_once
    (some { complete := false, naturalWidth := 0 })
    [ImgEvent.load, ImgEvent.timeout]).2 (by decide)

/-- Claim C10: the two fast paths the spec does not mention.  A falsy
`img`, or an image already `complete` with nonzero `naturalWidth`,
resolves immediately: exactly one `resolve`, no listeners attached, no
timer started, and the result is independent of any later events. -/
theorem waitForImageLoad_fast_paths (es : List ImgEvent) (i : Image)
    (hc : i.complete = true) (hw : i.naturalWidth ≠ 0) :
    waitForImageLoad none es = fastResolvedState ∧
    waitForImageLoad (some i) es = fastResolvedState ∧
    fastResolvedState.resolveCount = 1 ∧
    fastResolvedState.listenersAttached = false ∧
    fastResolvedState.timerActive = false := by
  refine ⟨rfl, ?_, rfl, rfl, rfl⟩
  have hb : (i.complete && i.naturalWidth != 0) = true := by
    simp [hc, hw]
  simp [waitForImageLoad, hb]

/-- Witness for C10 at a concrete already-loaded image. -/
theorem waitForImageLoad_fast_paths_witness :
    waitForImageLoad (some { complete := true, naturalWidth := 800 })
      [ImgEvent.error] = fastResolvedState :=
  (waitForImageLoad_fast_paths [ImgEvent.error]
    { complete := true, naturalWidth := 800 } rfl (by decide)).2.1

/-!
## Lightbox controller (script.js lines 136-201)

`openLightbox` first queries the document for an existing
`.tric-lightbox` element and returns if one is found; otherwise it
creates the overlay subtree and appends the single overlay root `lb`
to `document.body`.  The body is modelled as a list of child nodes,
each either the lightbox overlay root or some other node.

`closeLightbox` builds an exit timeline whose `onComplete` callback
runs `try { if (lb && lb.parentNode) lb.parentNode.removeChild(lb) }
catch (e) {}`.  All three close triggers — backdrop click, image
click, and the one-shot Escape keydown — call this same routine.
-/

/-- A child of `document.body`, as far as the lightbox query cares:
the overlay root (class `tric-lightbox`) or anything else. -/
inductive BodyNode
| lightbox
| other
deriving DecidableEq, Repr

/-- Does this node match the `.tric-lightbox` selector? -/
def isLightbox : BodyNode → Bool
| BodyNode.lightbox => true
| BodyNode.other => false

/-- Number of `.tric-lightbox` overlay nodes in the body. -/
def lightboxCount (body : List BodyNode) : Nat :=
  (body.filter isLightbox).length

/-- `openLightbox`: `if (qs('.tric-lightbox')) return;` then build the
overlay and `document.body.appendChild(lb)`. -/
def openLightbox (body : List BodyNode) : List BodyNode :=
  if body.any isLightbox then body else body ++ [BodyNode.lightbox]

lemma lightboxCount_eq_zero_of_none (body : List BodyNode)
    (h : body.any isLightbox = false) : lightboxCount body = 0 := by
  unfold lightboxCount
  rw [List.length_eq_zero, List.filter_eq_nil_iff]
  intro a ha
  have := List.any_eq_false.mp h a ha
  simpa using this

/-- Claim C2: with no `.tric-lightbox` in the document, `openLightbox`
appends exactly one new overlay node to `document.body`; while one
exists it returns immediately and appends zero nodes; hence the
at-most-one-overlay invariant is preserved. -/
theorem openLightbox_at_most_one (body : List BodyNode) :
    (body.any isLightbox = false →
      openLightbox body = body ++ [BodyNode.lightbox] ∧
      lightboxCount (openLightbox body) = lightboxCount body + 1) ∧
    (body.any isLightbox = true → openLightbox body = body) ∧
    (lightboxCount body ≤ 1 → lightboxCount (openLightbox body) ≤ 1) := by
  refine ⟨fun h => ⟨?_, ?_⟩, fun h => ?_, fun h => ?_⟩
  · simp [openLightbox, h]
  · simp [openLightbox, h, lightboxCount, List.filter_append, isLightbox]
  · simp [openLightbox, h]
  · by_cases hx : body.any isLightbox = true
    · simpa [openLightbox, hx] using h
    · have hx2 : body.any isLightbox = false := Bool.eq_false_iff.mpr hx
      have hz := lightboxCount_eq_zero_of_none body hx2
      unfold lightboxCount at hz ⊢
      simp [openLightbox, hx2, List.filter_append, isLightbox, hz]

/-- Witness for C2: opening over an empty body appends one overlay;
opening again is a no-op. -/
theorem openLightbox_at_most_one_witness :
    openLightbox [BodyNode.other] = [BodyNode.other, BodyNode.lightbox] ∧
    openLightbox [BodyNode.other, BodyNode.lightbox] =
      [BodyNode.other, BodyNode.lightbox] :=
  ⟨((openLightbox_at_most_one [BodyNode.other]).1 (by decide)).1,
   (openLightbox_at_most_one [BodyNode.other, BodyNode.lightbox]).2.1 (by decide)⟩

/-- Whether the overlay root `lb` created by this `openLightbox` call
is still attached to the document (`lb.parentNode` truthy). -/
structure LightboxDoc where
  overlayAttached : Bool
deriving DecidableEq, Repr

/-- Raw DOM `parentNode.removeChild(lb)`: detaches the node, or throws
a `NotFoundError` when `lb` is not a child any more. -/
def removeChild (d : LightboxDoc) : Except String LightboxDoc :=
  if d.overlayAttached then Except.ok { overlayAttached := false }
  else Except.error "NotFoundError"

/-- The exit timeline's `onComplete` callback:
`try { if (lb && lb.parentNode) lb.parentNode.removeChild(lb) } catch (e) {}`.
The `lb.parentNode` guard skips the removal when the node is already
detached, so the raw `removeChild` is only reached on an attached node
(the surrounding `try` would additionally swallow any throw). -/
def closeOnComplete (d : LightboxDoc) : Except String LightboxDoc :=
  if d.overlayAttached then removeChild d else Except.ok d

/-- `closeLightbox`: plays the exit animation; its completion callback
performs the guarded removal above. -/
def closeLightbox (d : LightboxDoc) : Except String LightboxDoc :=
  closeOnComplete d

/-- Handler registered by `backdrop.addEventListener('click', closeLightbox)`. -/
def onBackdropClick (d : LightboxDoc) : Except String LightboxDoc :=
  closeLightbox d

/-- Handler registered by `img.addEventListener('click', closeLightbox)`. -/
def onImageClick (d : LightboxDoc) : Except String LightboxDoc :=
  closeLightbox d

/-- The one-shot `escClose` keydown handler: closes only on Escape. -/
def onEscKeydown (key : String) (d : LightboxDoc) : Except String LightboxDoc :=
  if key == "Escape" then closeLightbox d else Except.ok d

/-- Claim C3: all three close triggers invoke the same `closeLightbox`
routine; after its completion callback the overlay is detached (zero
overlay nodes remain) and no exception escapes, and the removal is
idempotent — closing again with the node already detached returns the
same end state without throwing. -/
theorem closeLightbox_triggers_converge (d : LightboxDoc) :
    onBackdropClick d = closeLightbox d ∧
    onImageClick d = closeLightbox d ∧
    onEscKeydown "Escape" d = closeLightbox d ∧
    closeLightbox d = Except.ok { overlayAttached := false } ∧
    closeLightbox { overlayAttached := false } =
      Except.ok { overlayAttached := false } := by
  refine ⟨rfl, rfl, rfl, ?_, rfl⟩
  cases d with
  | mk attached => cases attached <;> rfl

/-!
## Modal controller (script.js lines 242-334)

`initModal` keeps two module-level timeline handles `openTL`/`closeTL`
(initially `null`).  `getModalEls` re-queries `#detailsModal` on every
interaction.  `buildTimelines` constructs both timelines and stores
them in the two handles.  `openModal` warns and returns when the modal
is absent; otherwise it immediately adds the `is-open` class and sets
`aria-hidden="false"`, lazily builds the timelines when `openTL` is
still null, and plays the open timeline.  `closeModal` silently
returns when the modal is absent; otherwise it lazily builds when
`closeTL` is still null and plays the close timeline, whose completion
removes `is-open` and sets `aria-hidden="true"`.

The embedding tracks: whether `#detailsModal` is in the document, the
`is-open` class bit, the `aria-hidden` attribute value, the two cached
handles (tagged with the build generation that produced them), a count
of `buildTimelines` executions, a count of `getModalEls` DOM queries,
and the console-warning log.
-/

/-- Module-level state of the modal controller plus the relevant DOM
state of the `#detailsModal` element. -/
structure ModalState where
  modalPresent : Bool
  isOpenClass : Bool
  ariaHidden : String
  openTL : Option Nat
  closeTL : Option Nat
  builds : Nat
  queries : Nat
  warnings : List String
deriving DecidableEq, Repr

/-- `buildTimelines`: constructs both timelines and stores them in the
module-level handles (tagged with the current build generation). -/
def buildTimelines (s : ModalState) : ModalState :=
  { s with openTL := some s.builds, closeTL := some s.builds,
           builds := s.builds + 1 }

/-- `openModal`: `getModalEls()` re-queries the DOM; when the modal is
missing it warns `'Modal not found'` and returns; otherwise it adds
the `is-open` class and sets `aria-hidden="false"` immediately (before
any timeline is built or played), lazily builds the timelines when
`openTL` is still null, then plays the open timeline from 0. -/
def openModal (s : ModalState) : ModalState :=
  let q := { s with queries := s.queries + 1 }
  if q.modalPresent then
    let o := { q with isOpenClass := true, ariaHidden := "false" }
    if o.openTL.isNone then buildTimelines o else o
  else { q with warnings := q.warnings ++ ["Modal not found"] }

/-- `closeModal`: `getModalEls()` re-queries the DOM; when the modal
is missing it returns silently; otherwise it lazily builds the
timelines when `closeTL` is still null and plays the close timeline.
The returned flag records whether the close timeline's completion
callback was scheduled. -/
def closeModal (s : ModalState) : ModalState × Bool :=
  let q := { s with queries := s.queries + 1 }
  if q.modalPresent then
    (if q.closeTL.isNone then buildTimelines q else q, true)
  else (q, false)

/-- The close timeline's completion callback:
`els.modal.classList.remove('is-open'); els.modal.setAttribute('aria-hidden', 'true')`. -/
def closeModalCompletion (s : ModalState) : ModalState :=
  { s with isOpenClass := false, ariaHidden := "true" }

/-- Claim C4: with the modal present, `openModal` immediately — before
any animation work — sets the `is-open` class and `aria-hidden="false"`;
a subsequent `closeModal` schedules the close timeline, and once its
completion callback runs the `is-open` class is gone and `aria-hidden`
is back to `"true"`. -/
theorem modal_open_close_cycle (s : ModalState) (h : s.modalPresent = true) :
    (openModal s).isOpenClass = true ∧
    (openModal s).ariaHidden = "false" ∧
    (closeModal (openModal s)).2 = true ∧
    (closeModalCompletion (closeModal (openModal s)).1).isOpenClass = false ∧
    (closeModalCompletion (closeModal (openModal s)).1).ariaHidden = "true" := by
  have hopen : (openModal s).isOpenClass = true ∧ (openModal s).ariaHidden = "false" ∧
      (openModal s).modalPresent = true := by
    unfold openModal
    by_cases ht : s.openTL.isNone <;> simp [h, ht, buildTimelines]
  refine ⟨hopen.1, hopen.2.1, ?_, ?_, ?_⟩
  · unfold closeModal
    simp [hopen.2.2]
  · simp [closeModalCompletion]
  · simp [closeModalCompletion]

/-- Witness for C4 on a concrete fresh document holding the modal. -/
theorem modal_open_close_cycle_witness :
    (openModal { modalPresent := true, isOpenClass := false, ariaHidden := "true",
                 openTL := none, closeTL := none, builds := 0, queries := 0,
                 warnings := [] }).isOpenClass = true :=
  (modal_open_close_cycle
    { modalPresent := true, isOpenClass := false, ariaHidden := "true",
      openTL := none, closeTL := none, builds := 0, queries := 0,
      warnings := [] } rfl).1

/-- One user interaction with the modal controller: an open request or
a close request. -/
inductive ModalOp
| openOp
| closeOp
deriving DecidableEq, Repr

/-- Apply one interaction to the controller state. -/
def applyModalOp (s : ModalState) : ModalOp → ModalState
| ModalOp.openOp => openModal s
| ModalOp.closeOp => (closeModal s).1

/-- Run a sequence of interactions. -/
def runModalOps (s : ModalState) (ops : List ModalOp) : ModalState :=
  ops.foldl applyModalOp s

/-- A page that just initialised: modal in the DOM, closed, no
timelines built yet, nothing logged. -/
def freshModalState : ModalState :=
  { modalPresent := true, isOpenClass := false, ariaHidden := "true",
    openTL := none, closeTL := none, builds := 0, queries := 0, warnings := [] }

/-- The cache invariant after the first interaction: both handles hold
the generation-0 timelines and `buildTimelines` ran exactly once. -/
def CacheBuilt (s : ModalState) : Prop :=
  s.modalPresent = true ∧ s.builds = 1 ∧
  s.openTL = some 0 ∧ s.closeTL = some 0

instance (s : ModalState) : Decidable (CacheBuilt s) := by
  unfold CacheBuilt; infer_instance

lemma applyModalOp_preserves_cache (s : ModalState) (op : ModalOp)
    (h : CacheBuilt s) :
    CacheBuilt (applyModalOp s op) ∧
    (applyModalOp s op).queries = s.queries + 1 := by
  obtain ⟨hp, hb, ho, hc⟩ := h
  cases op with
  | openOp =>
    unfold applyModalOp openModal
    simp [hp, ho, CacheBuilt, hb, hc]
  | closeOp =>
    unfold applyModalOp closeModal
    simp [hp, hc, CacheBuilt, hb, ho]

lemma runModalOps_preserves_cache (ops : List ModalOp) (s : ModalState)
    (h : CacheBuilt s) :
    CacheBuilt (runModalOps s ops) ∧
    (runModalOps s ops).queries = s.queries + ops.length := by
  induction ops generalizing s with
  | nil => exact ⟨h, rfl⟩
  | cons op ops ih =>
    have step := applyModalOp_preserves_cache s op h
    have rest := ih (applyModalOp s op) step.1
    refine ⟨rest.1, ?_⟩
    show (runModalOps (applyModalOp s op) ops).queries = s.queries + (op :: ops).length
    rw [rest.2, step.2]
    simp [Nat.add_assoc, Nat.add_comm 1 ops.length]

lemma first_op_builds (op : ModalOp) :
    CacheBuilt (applyModalOp freshModalState op) ∧
    (applyModalOp freshModalState op).queries = 1 := by
  cases op <;> exact ⟨by decide, by decide⟩

/-- Claim C6: starting from a fresh page with the modal present, the
first interaction — whether an open or a close — runs `buildTimelines`
exactly once, building and caching both timelines; every later
interaction reuses the cached generation-0 handles and never rebuilds
or clears them, while `getModalEls` re-queries the DOM once per
interaction (`queries` counts the interactions, not 1). -/
theorem modal_timelines_built_once (ops : List ModalOp) (h : ops ≠ []) :
    (runModalOps freshModalState ops).builds = 1 ∧
    (runModalOps freshModalState ops).openTL = some 0 ∧
    (runModalOps freshModalState ops).closeTL = some 0 ∧
    (runModalOps freshModalState ops).queries = ops.length := by
  match ops, h with
  | op :: rest, _ =>
    have step := first_op_builds op
    have run := runModalOps_preserves_cache rest (applyModalOp freshModalState op) step.1
    have hq : (runModalOps (applyModalOp freshModalState op) rest).queries
        = 1 + rest.length := by rw [run.2, step.2]
    obtain ⟨-, hb, ho, hc⟩ := run.1
    exact ⟨hb, ho, hc, by simpa [runModalOps, Nat.add_comm] using hq⟩

/-- Witness for C6: open, close, open again — one build, three queries. -/
theorem modal_timelines_built_once_witness :
    (runModalOps freshModalState [ModalOp.openOp, ModalOp.closeOp, ModalOp.openOp]).builds = 1 ∧
    (runModalOps freshModalState [ModalOp.openOp, ModalOp.closeOp, ModalOp.openOp]).queries = 3 := by
  have h := modal_timelines_built_once
    [ModalOp.openOp, ModalOp.closeOp, ModalOp.openOp] (by decide)
  exact ⟨h.1, h.2.2.2⟩

/-- A page whose DOM lacks `#detailsModal` entirely. -/
def absentModalState : ModalState :=
  { modalPresent := false, isOpenClass := false, ariaHidden := "true",
    openTL := none, closeTL := none, builds := 0, queries := 0, warnings := [] }

/-- Counterexample for C7: with the modal absent, `closeModal` logs
NOTHING — its guard is a bare `return`, unlike `openModal`'s
`return console.warn('Modal not found')` — so the claim that both
requests produce a console warning is false. -/
theorem closeModal_absent_logs_nothing_cex :
    (closeModal absentModalState).1.warnings = [] ∧
    (closeModal absentModalState).2 = false ∧
    (openModal absentModalState).warnings = ["Modal not found"] := by
  refine ⟨?_, ?_, ?_⟩ <;> rfl

/-- Claim C7 (amended): with `#detailsModal` absent, `openModal` logs
the `'Modal not found'` console warning and returns, and `closeModal`
returns silently with no warning; neither throws, schedules any
animation, or mutates the open class, the aria attribute, or the
timeline cache. -/
theorem modal_absent_requests_ignored (s : ModalState)
    (h : s.modalPresent = false) :
    (openModal s).warnings = s.warnings ++ ["Modal not found"] ∧
    (openModal s).isOpenClass = s.isOpenClass ∧
    (openModal s).ariaHidden = s.ariaHidden ∧
    (openModal s).openTL = s.openTL ∧
    (openModal s).closeTL = s.closeTL ∧
    (openModal s).builds = s.builds ∧
    (closeModal s).1 = { s with queries := s.queries + 1 } ∧
    (closeModal s).2 = false := by
    unfold openModal closeModal
    simp [h]

/-- Witness for C7 (amended) at the concrete modal-less page. -/
theorem modal_absent_requests_ignored_witness :
    (openModal absentModalState).warnings = [] ++ ["Modal not found"] :=
  (modal_absent_requests_ignored absentModalState rfl).1

/-!
## Delegated document click handler (script.js lines 295-315)

The handler inspects `e.target`.  `t.closest(sel)` walks from the
target up through its ancestors and returns the first element matching
the selector, so the target is modelled as its ancestor chain (the
element itself first).  The backdrop test is `t === els.backdrop`:
object identity against the element returned by
`modal.querySelector('.modal-backdrop')`, modelled by a unique node
reference.
-/

/-- A DOM element as the click handler sees it: an identity reference,
an optional id attribute and its class list. -/
structure DomNode where
  ref : Nat
  idAttr : Option String
  classes : List String
deriving DecidableEq, Repr

/-- Does the node match the `#viewDetailsBtn` selector? -/
def matchesViewDetailsBtn (n : DomNode) : Bool :=
  n.idAttr == some "viewDetailsBtn"

/-- Does the node match the `.modal-close-btn` selector? -/
def matchesCloseBtn (n : DomNode) : Bool :=
  n.classes.contains "modal-close-btn"

/-- `t.closest(sel)`: first node in the chain (self, then ancestors)
matching the selector. -/
def closestMatch (p : DomNode → Bool) (chain : List DomNode) : Option DomNode :=
  chain.find? p

/-- What the delegated click handler ends up doing. -/
inductive ClickAction
| openAction
| closeAction
| noAction
deriving DecidableEq, Repr

/-- The `document` click listener.  `backdrop` is
`getModalEls().backdrop` when `#detailsModal` was found (`none` models
a missing modal, in which case neither close test runs).  `chain` is
the event target followed by its ancestors. -/
def documentClickHandler (backdrop : Option DomNode) (chain : List DomNode) :
    ClickAction :=
  if (closestMatch matchesViewDetailsBtn chain).isSome then ClickAction.openAction
  else
    match backdrop with
    | none => ClickAction.noAction
    | some b =>
      if (closestMatch matchesCloseBtn chain).isSome then ClickAction.closeAction
      else
        match chain with
        | [] => ClickAction.noAction
        | t :: _ => if t.ref == b.ref then ClickAction.closeAction
                    else ClickAction.noAction

/-- Claim C5: when neither the open button nor a close button is in
the target's ancestry, a click whose target IS the backdrop element
(identity match) closes the modal, and a click on any other element —
even one lying inside the backdrop's subtree, i.e. with the backdrop
among its ancestors — does not. -/
theorem backdrop_click_exact_target (b t : DomNode) (anc : List DomNode)
    (hv : ∀ n ∈ t :: anc, matchesViewDetailsBtn n = false)
    (hc : ∀ n ∈ t :: anc, matchesCloseBtn n = false) :
    (t.ref = b.ref →
      documentClickHandler (some b) (t :: anc) = ClickAction.closeAction) ∧
    (t.ref ≠ b.ref →
      documentClickHandler (some b) (t :: anc) = ClickAction.noAction) := by
  have hvn : closestMatch matchesViewDetailsBtn (t :: anc) = none := by
    unfold closestMatch
    rw [List.find?_eq_none]
    intro n hn
    simp [hv n hn]
  have hcn : closestMatch matchesCloseBtn (t :: anc) = none := by
    unfold closestMatch
    rw [List.find?_eq_none]
    intro n hn
    simp [hc n hn]
  constructor
  · intro he
    unfold documentClickHandler
    simp [hvn, hcn, he]
  · intro he
    unfold documentClickHandler
    simp [hvn, hcn, he]

/-- Witness for C5 on a concrete DOM: the backdrop (ref 2) sits inside
the modal (ref 1); clicking the backdrop itself closes, while clicking
a paragraph (ref 7) inside the content area — with the backdrop NOT
being the target even though an ancestor chain through the modal is in
play — does not close. -/
theorem backdrop_click_exact_target_witness :
    documentClickHandler
      (some { ref := 2, idAttr := none, classes := ["modal-backdrop"] })
      [{ ref := 2, idAttr := none, classes := ["modal-backdrop"] },
       { ref := 1, idAttr := some "detailsModal", classes := [] },
       { ref := 0, idAttr := none, classes := [] }] = ClickAction.closeAction ∧
    documentClickHandler
      (some { ref := 2, idAttr := none, classes := ["modal-backdrop"] })
      [{ ref := 7, idAttr := none, classes := [] },
       { ref := 3, idAttr := none, classes := ["modal-content"] },
       { ref := 2, idAttr := none, classes := ["modal-backdrop"] },
       { ref := 1, idAttr := some "detailsModal", classes := [] },
       { ref := 0, idAttr := none, classes := [] }] = ClickAction.noAction :=
  ⟨(backdrop_click_exact_target
      { ref := 2, idAttr := none, classes := ["modal-backdrop"] }
      { ref := 2, idAttr := none, classes := ["modal-backdrop"] }
      [{ ref := 1, idAttr := some "detailsModal", classes := [] },
       { ref := 0, idAttr := none, classes := [] }]
      (by decide) (by decide)).1 rfl,
   (backdrop_click_exact_target
      { ref := 2, idAttr := none, classes := ["modal-backdrop"] }
      { ref := 7, idAttr := none, classes := [] }
      [{ ref := 3, idAttr := none, classes := ["modal-content"] },
       { ref := 2, idAttr := none, classes := ["modal-backdrop"] },
       { ref := 1, idAttr := some "detailsModal", classes := [] },
       { ref := 0, idAttr := none, classes := [] }]
      (by decide) (by decide)).2 (by decide)⟩

/-!
## Button micro-interactions (script.js lines 225-237)

Each `.btn` element gets four listeners.  A `gsap.to` tween animates
the listed properties to the given end values, so once the tween has
completed the element's transform state equals those end values; the
embedding records the settled values.  `mouseenter` targets `y: -4,
scale: 1.01`; `mouseleave` targets `y: 0, scale: 1` (the rest state);
`focus` and `blur` only touch `boxShadow`.
-/

/-- The animatable visual state of one button. -/
structure BtnVisual where
  y : Int
  scale : ℚ
  boxShadow : String
deriving DecidableEq, Repr

/-- `mouseenter`: `gsap.to(btn, { y: -4, scale: 1.01, ... })`. -/
def onMouseEnter (b : BtnVisual) : BtnVisual :=
  { b with y := -4, scale := 101 / 100 }

/-- `mouseleave`: `gsap.to(btn, { y: 0, scale: 1, ... })`. -/
def onMouseLeave (b : BtnVisual) : BtnVisual :=
  { b with y := 0, scale := 1 }

/-- `focus`: `gsap.to(btn, { boxShadow: '0 10px 30px rgba(99,58,234,0.18)', ... })`. -/
def onFocusBtn (b : BtnVisual) : BtnVisual :=
  { b with boxShadow := "0 10px 30px rgba(99,58,234,0.18)" }

/-- `blur`: `gsap.to(btn, { boxShadow: 'none', ... })`. -/
def onBlurBtn (b : BtnVisual) : BtnVisual :=
  { b with boxShadow := "none" }

/-- Claim C8: a pointer-enter followed by a pointer-leave brings the
button's transform back to the rest values `y = 0`, `scale = 1`; for a
button that was at rest before the hover (the page's initial state)
the enter/leave pair is a full round trip to the pre-hover state. -/
theorem button_hover_round_trip (b : BtnVisual)
    (hy : b.y = 0) (hs : b.scale = 1) :
    (onMouseLeave (onMouseEnter b)).y = 0 ∧
    (onMouseLeave (onMouseEnter b)).scale = 1 ∧
    onMouseLeave (onMouseEnter b) = b := by
  refine ⟨rfl, rfl, ?_⟩
  cases b with
  | mk y scale shadow =>
    simp only [onMouseEnter, onMouseLeave]
    simp_all

/-- Witness for C8 at a concrete rest-state button. -/
theorem button_hover_round_trip_witness :
    onMouseLeave (onMouseEnter { y := 0, scale := 1, boxShadow := "none" }) =
      { y := 0, scale := 1, boxShadow := "none" } :=
  (button_hover_round_trip { y := 0, scale := 1, boxShadow := "none" }
    rfl rfl).2.2

/-!
## Focus containment (script.js lines 324-333)

The `focusin` listener re-queries the modal; when it is present and
carries the `is-open` class and the focused target is NOT contained in
the modal subtree, it focuses the first element of
`modal.querySelectorAll('a, button, input, textarea, select')` — when
that list is nonempty.  Descendants of the modal are modelled as a
list of (tag name, node reference) pairs in document order, and
`modal.contains(e.target)` as membership of the target's reference in
the subtree's reference list.
-/

/-- Tags matched by the focusable-elements selector. -/
def focusableTags : List String :=
  ["a", "button", "input", "textarea", "select"]

/-- `modal.querySelectorAll('a, button, input, textarea, select')`:
the references of the modal's descendants whose tag matches, in
document order. -/
def queryFocusables (descendants : List (String × Nat)) : List Nat :=
  (descendants.filter (fun d => focusableTags.contains d.1)).map (fun d => d.2)

/-- The modal-relevant DOM state seen by the `focusin` listener. -/
structure FocusDoc where
  modalPresent : Bool
  isOpenClass : Bool
  modalSubtree : List Nat
  descendants : List (String × Nat)
deriving DecidableEq, Repr

/-- The `focusin` listener: returns `some r` when it redirects focus
to the element `r`, `none` when it leaves focus alone. -/
def onFocusIn (d : FocusDoc) (target : Nat) : Option Nat :=
  if d.modalPresent = false then none
  else if d.isOpenClass = false then none
  else if d.modalSubtree.contains target then none
  else (queryFocusables d.descendants).head?

/-- Claim C9: while the modal is open, a focus event landing outside
the modal subtree is redirected to the modal's first focusable
descendant (the first selector match); a focus event inside the
subtree, or any focus event while the modal is closed, triggers no
redirection. -/
theorem modal_focus_containment (d : FocusDoc) (target f : Nat)
    (fs : List Nat) (hp : d.modalPresent = true)
    (hf : queryFocusables d.descendants = f :: fs) :
    (d.isOpenClass = true → d.modalSubtree.contains target = false →
      onFocusIn d target = some f) ∧
    (d.modalSubtree.contains target = true → onFocusIn d target = none) ∧
    (d.isOpenClass = false → onFocusIn d target = none) := by
  refine ⟨fun ho hm => ?_, fun hm => ?_, fun ho => ?_⟩
  · have hm2 : target ∉ d.modalSubtree := by simpa using hm
    unfold onFocusIn
    simp [hp, ho, hm2, hf]
  · have hm2 : target ∈ d.modalSubtree := by simpa using hm
    unfold onFocusIn
    simp [hp, hm2]
  · unfold onFocusIn
    simp [hp, ho]

/-- Witness for C9 on a concrete open modal holding a close button
(ref 4) and a link (ref 5): focusing ref 9 outside the subtree
redirects to ref 4; focusing ref 5 inside it does not. -/
theorem modal_focus_containment_witness :
    onFocusIn
      { modalPresent := true, isOpenClass := true, modalSubtree := [1, 2, 3, 4, 5],
        descendants := [("div", 3), ("button", 4), ("a", 5)] } 9 = some 4 ∧
    onFocusIn
      { modalPresent := true, isOpenClass := true, modalSubtree := [1, 2, 3, 4, 5],
        descendants := [("div", 3), ("button", 4), ("a", 5)] } 5 = none :=
  ⟨(modal_focus_containment
      { modalPresent := true, isOpenClass := true, modalSubtree := [1, 2, 3, 4, 5],
        descendants := [("div", 3), ("button", 4), ("a", 5)] } 9 4 [5]
      rfl (by decide)).1 rfl (by decide),
   (modal_focus_containment
      { modalPresent := true, isOpenClass := true, modalSubtree := [1, 2, 3, 4, 5],
        descendants := [("div", 3), ("button", 4), ("a", 5)] } 5 4 [5]
      rfl (by decide)).2.1 (by decide)⟩

end Tricelerate
